import Mathlib

/-!
Verification of the ClauseCheck results-visualization core.

The definitions below are shallow embeddings of the frontend source:
* `Dashboard` (verdict banner, risk/compliance colors, risk-type grouping,
  compliance progress arc) — `src/unnamed/part_000`;
* `ResultsPage` (assessment class, compliance color) —
  `src/frontend/src/pages/ResultsPage.jsx`;
* `ScoreRing` / `ScoreGauge` arc geometry — `src/unnamed/part_000` and
  `src/frontend/src/components/ScoreGauge.jsx`;
* `getOrCreateTooltipEl` lazy tooltip singleton — `src/unnamed/part_000`;
* `useScrollReveal` one-shot reveal hook — `src/unnamed/part_005`.

Scores are JS numbers used as integers by the callers; they are embedded as
`ℤ` for the classification logic and as `ℝ` for the arc geometry (which
multiplies by `π`). Stateful DOM interactions are embedded as explicit state
passing over small state structures.
-/

namespace ClauseCheck

/- ──────────────────────────────────────────────────────────────
   Definitions: verdict and color classification
   (Dashboard lines 222-232, ResultsPage lines 88-90)
   ────────────────────────────────────────────────────────────── -/

/-- The verdict banner value of `Dashboard`: a display label and a CSS class. -/
structure Verdict where
  label : String
  cls : String
deriving DecidableEq, Repr

/-- `Dashboard` verdict (part_000 lines 228-232):
`result.risk_score > 60 ? {label: 'High Risk — …', cls: 'verdict-danger'}
 : result.risk_score > 30 ? {…, 'verdict-warning'} : {…, 'verdict-safe'}`. -/
def dashboardVerdict (riskScore : ℤ) : Verdict :=
  if riskScore > 60 then
    ⟨"High Risk — Review Before Signing", "verdict-danger"⟩
  else if riskScore > 30 then
    ⟨"Moderate Risk — Negotiate Key Clauses", "verdict-warning"⟩
  else
    ⟨"Low Risk — Generally Safe to Proceed", "verdict-safe"⟩

/-- `ResultsPage` line 90:
`result.risk_score > 60 ? 'danger' : result.risk_score > 30 ? 'warning' : 'safe'`. -/
def assessmentClass (riskScore : ℤ) : String :=
  if riskScore > 60 then "danger" else if riskScore > 30 then "warning" else "safe"

/-- `ResultsPage` line 89:
`result.compliance_score >= 70 ? '#22c55e' : result.compliance_score >= 40 ?
'#f59e0b' : '#ef4444'` (green / amber / red hex palette). -/
def complianceColor (cs : ℤ) : String :=
  if cs ≥ 70 then "#22c55e" else if cs ≥ 40 then "#f59e0b" else "#ef4444"

/-- `Dashboard` line 224:
`result.compliance_score >= 70 ? '#4ade80' : result.compliance_score >= 40 ?
'#fbbf24' : '#f87171'` (green / amber / red hex palette). -/
def dashCompColor (cs : ℤ) : String :=
  if cs ≥ 70 then "#4ade80" else if cs ≥ 40 then "#fbbf24" else "#f87171"

/- ──────────────────────────────────────────────────────────────
   Definitions: compliance progress arc
   (ComplianceGrid, part_000 lines 146-151)
   ────────────────────────────────────────────────────────────── -/

/-- One entry of `compliance.details`. -/
structure ComplianceCheck where
  clause_type : String
  found : Bool
deriving DecidableEq, Repr

/-- `Dashboard` line 213: `compDetails.filter(d => d.found).length`. -/
def compFound (details : List ComplianceCheck) : ℕ :=
  (details.filter fun d => d.found).length

/-- `ComplianceGrid` line 149: the filled dash length
`(foundCount / Math.max(totalCount, 1)) * 132`. -/
def compArcDash (foundCount totalCount : ℕ) : ℚ :=
  (foundCount : ℚ) / ((max totalCount 1 : ℕ) : ℚ) * 132

/-- The dash length as `Dashboard` invokes `ComplianceGrid` (lines 387-391):
`foundCount := compFound details`, `totalCount := details.length`. -/
def complianceArcDash (details : List ComplianceCheck) : ℚ :=
  compArcDash (compFound details) details.length

/- ──────────────────────────────────────────────────────────────
   Definitions: gauge arc geometry
   (ScoreRing, part_000 lines 89-93; ScoreGauge.jsx lines 1-4)
   ────────────────────────────────────────────────────────────── -/

/-- `ScoreRing` line 90-91: `strokeWidth = 8; radius = (size - strokeWidth) / 2`. -/
noncomputable def scoreRingRadius (size : ℝ) : ℝ := (size - 8) / 2

/-- `ScoreRing` line 92: `circumference = 2 * Math.PI * radius`. -/
noncomputable def scoreRingCircumference (size : ℝ) : ℝ :=
  2 * Real.pi * scoreRingRadius size

/-- `ScoreRing` line 93: `offset = circumference - (score / 100) * circumference`.
The raw `score` prop is used; there is no clamping in the source. -/
noncomputable def scoreRingOffset (size score : ℝ) : ℝ :=
  scoreRingCircumference size - score / 100 * scoreRingCircumference size

/-- `ScoreGauge` lines 2-4: fixed `radius = 58`,
`circumference = 2 * Math.PI * radius`,
`offset = circumference - (score / 100) * circumference`. -/
noncomputable def scoreGaugeOffset (score : ℝ) : ℝ :=
  2 * Real.pi * 58 - score / 100 * (2 * Real.pi * 58)

/-- Modelled from the spec (§4.3): the spec's claimed rest offset
`C − (clamp(score,0,100)/100) * C`. This definition follows the spec's words
(the clamping step is absent from the source) and exists only to be compared
with `scoreRingOffset`. -/
noncomputable def specClampedRingOffset (size score : ℝ) : ℝ :=
  scoreRingCircumference size - max 0 (min score 100) / 100 * scoreRingCircumference size

/- ──────────────────────────────────────────────────────────────
   Definitions: shared overlay tooltip
   (getOrCreateTooltipEl, part_000 lines 15-24)
   ────────────────────────────────────────────────────────────── -/

/-- The DOM as `getOrCreateTooltipEl` sees it: the ordered list of elements in
the document carrying the id `chartjs-ext-tooltip` (element identity modelled
as a natural-number handle) and a supply of fresh handles for
`document.createElement`. -/
structure TooltipDom where
  tooltipElems : List ℕ
  fresh : ℕ
deriving DecidableEq, Repr

/-- `document.getElementById('chartjs-ext-tooltip')` (part_000 line 16): the
first element with that id, if any. -/
def getElementByTooltipId (d : TooltipDom) : Option ℕ := d.tooltipElems.head?

/-- `getOrCreateTooltipEl` (part_000 lines 15-24): if an element with the
tooltip id exists, return it unchanged; otherwise create a fresh element with
that id, append it to the body, and return it. -/
def getOrCreateTooltipEl (d : TooltipDom) : ℕ × TooltipDom :=
  match getElementByTooltipId d with
  | some el => (el, d)
  | none =>
      (d.fresh, { tooltipElems := d.tooltipElems ++ [d.fresh], fresh := d.fresh + 1 })

/-- `n` successive requests of the shared overlay element (for example, show
events driven from `n` chart instances in sequence), collecting the returned
handles in order. -/
def requestTooltip : ℕ → TooltipDom → List ℕ × TooltipDom
  | 0, d => ([], d)
  | n + 1, d =>
      ((getOrCreateTooltipEl d).1 :: (requestTooltip n (getOrCreateTooltipEl d).2).1,
       (requestTooltip n (getOrCreateTooltipEl d).2).2)

/- ──────────────────────────────────────────────────────────────
   Definitions: scroll reveal hook
   (useScrollReveal, part_005 lines 12-102)
   ────────────────────────────────────────────────────────────── -/

/-- DOM-facing actions performed by the `useScrollReveal` effect, in program
order: style writes and the `observer.observe` subscription. -/
inductive RAction where
  | setElOpacity (v : String)
  | setChildOpacity (i : ℕ) (v : String)
  | subscribe
deriving DecidableEq, Repr

/-- State of one mounted `useScrollReveal` instance: the `isVisible` React
state, the inline opacity of the container and of its children (`none` =
never written), whether an IntersectionObserver subscription is live, the
`hasAnimated` ref, and how many times the entrance animation was started. -/
structure RevealInst where
  isVisible : Bool
  elOpacity : Option String
  childOpacity : List (Option String)
  subscribed : Bool
  hasAnimated : Bool
  animCount : ℕ
deriving DecidableEq, Repr

/-- The synchronous body of the `useScrollReveal` effect (part_005 lines
22-96) up to and including `observer.observe(el)`, for a container with `n`
children: under reduced motion set `isVisible` and opacity 1 and return
without observing; otherwise write the hidden starting style (children in
stagger mode, the container itself otherwise) and then subscribe. Returns the
resulting instance state and the ordered list of DOM actions performed. -/
def revealSetup (reduced stagger : Bool) (n : ℕ) : RevealInst × List RAction :=
  if reduced then
    ({ isVisible := true, elOpacity := some "1",
       childOpacity := List.replicate n none,
       subscribed := false, hasAnimated := false, animCount := 0 },
     [RAction.setElOpacity "1"])
  else if stagger then
    ({ isVisible := false, elOpacity := none,
       childOpacity := List.replicate n (some "0"),
       subscribed := true, hasAnimated := false, animCount := 0 },
     ((List.range n).map fun i => RAction.setChildOpacity i "0")
       ++ [RAction.subscribe])
  else
    ({ isVisible := false, elOpacity := some "0",
       childOpacity := List.replicate n none,
       subscribed := true, hasAnimated := false, animCount := 0 },
     [RAction.setElOpacity "0", RAction.subscribe])

/-- The IntersectionObserver callback (part_005 lines 45-91) on one entry with
the given `isIntersecting` flag: on the first intersecting entry it sets
`hasAnimated`, flips `isVisible`, starts the one-shot animation (counted in
`animCount`; the animation itself tweens opacity asynchronously and is outside
this state), and disconnects the observer; otherwise it does nothing. -/
def revealCallback (s : RevealInst) (isIntersecting : Bool) : RevealInst :=
  if isIntersecting && !s.hasAnimated then
    { s with hasAnimated := true, isVisible := true,
             animCount := s.animCount + 1, subscribed := false }
  else s

/-- Deliver a sequence of visibility events: the observer only invokes the
callback while the subscription is live. -/
def revealRun (s : RevealInst) : List Bool → RevealInst
  | [] => s
  | e :: es => revealRun (if s.subscribed then revealCallback s e else s) es

/-- The fired state after the first intersecting event. -/
def revealFired (s : RevealInst) : RevealInst :=
  { s with hasAnimated := true, isVisible := true,
           animCount := s.animCount + 1, subscribed := false }

/-- The hidden-style writes performed before subscribing: each child in
stagger mode, the container itself otherwise. -/
def hiddenSets (stagger : Bool) (n : ℕ) : List RAction :=
  if stagger then (List.range n).map fun i => RAction.setChildOpacity i "0"
  else [RAction.setElOpacity "0"]

/-- Whether an action writes a zero (hidden) opacity. -/
def isHiddenSet : RAction → Bool
  | RAction.setElOpacity v => v == "0"
  | RAction.setChildOpacity _ v => v == "0"
  | RAction.subscribe => false

/- ──────────────────────────────────────────────────────────────
   Definitions: risk-by-type breakdown
   (Dashboard, part_000 lines 204-209)
   ────────────────────────────────────────────────────────────── -/

/-- One entry of the `risks` sequence, as used by the grouping code:
`risk_type` is optional/free-form (absent or empty is falsy in JS). -/
structure Risk where
  clause_id : ℕ
  risk_type : Option String
  severity : String
deriving DecidableEq, Repr

/-- `(r.risk_type || 'other').replace(/_/g, ' ')` (part_000 line 206): a falsy
risk_type (absent or the empty string) defaults to `other`, then every
underscore is replaced by a space. The regex pattern is the single character
`_`, so global replacement is exactly a characterwise map. -/
def displayType (r : Risk) : String :=
  ⟨(match r.risk_type with
    | none => "other"
    | some s => if s = "" then "other" else s).data.map
      fun c => if c = '_' then ' ' else c⟩

/-- `riskTypeMap[type] = (riskTypeMap[type] || 0) + 1` (part_000 line 207) on
an insertion-ordered map embedded as an association list: increment the
existing entry in place, or append a new entry with count 1 (JS objects with
non-index string keys enumerate in insertion order). -/
def bump : List (String × ℕ) → String → List (String × ℕ)
  | [], t => [(t, 1)]
  | (k, c) :: rest, t =>
      if k = t then (k, c + 1) :: rest else (k, c) :: bump rest t

/-- Folding `bump` over a list of display types. -/
def bumpAll (m : List (String × ℕ)) (ts : List String) : List (String × ℕ) :=
  ts.foldl bump m

/-- `risks.forEach(...)` building `riskTypeMap` (part_000 lines 204-208), then
`Object.entries` in insertion order. -/
def riskTypeEntries (risks : List Risk) : List (String × ℕ) :=
  risks.foldl (fun m r => bump m (displayType r)) []

/-- The order relation realised by the comparator `(a, b) => b[1] - a[1]`
(part_000 line 209): `a` may stay before `b` iff the comparator is ≤ 0,
i.e. iff `b.2 ≤ a.2`. -/
def riskTypeLe (a b : String × ℕ) : Bool := decide (b.2 ≤ a.2)

/-- `Object.entries(riskTypeMap).sort((a, b) => b[1] - a[1])` (part_000 line
209): a stable sort of the insertion-ordered entries, descending by count.
JS `Array.prototype.sort` is stable, so any stable sort with the same total
preorder produces the same list; `mergeSort` is that stable sort. -/
def riskTypes (risks : List Risk) : List (String × ℕ) :=
  (riskTypeEntries risks).mergeSort riskTypeLe

/-- Ordered-association-list lookup. -/
def lookupCount : List (String × ℕ) → String → Option ℕ
  | [], _ => none
  | (k, c) :: rest, t => if k = t then some c else lookupCount rest t

/-- Adding `k` occurrences to an optional count. -/
def addCount : Option ℕ → ℕ → Option ℕ
  | some c, k => some (c + k)
  | none, 0 => none
  | none, k + 1 => some (k + 1)

/-- A fixed risks list exercising grouping, a duplicate category, underscore
replacement, the `other` default, and a tie in counts. -/
def demoRisks : List Risk :=
  [⟨1, some "auto_renewal", "high"⟩, ⟨2, some "liability", "low"⟩,
   ⟨3, some "auto_renewal", "medium"⟩, ⟨4, none, "low"⟩]

/- ──────────────────────────────────────────────────────────────
   Theorems: verdict and compliance colors (C1, C5)
   ────────────────────────────────────────────────────────────── -/

/-- C1: for risk_score in [0,100] the verdict class is danger iff
risk_score > 60, warning iff 30 < risk_score ≤ 60, safe iff risk_score ≤ 30;
the Dashboard banner class agrees with the ResultsPage assessment class, and
the boundary values 30 and 60 land in the lower-severity bucket. -/
theorem verdict_classification (s : ℤ) (h0 : 0 ≤ s) (h100 : s ≤ 100) :
    (assessmentClass s = "danger" ↔ 60 < s)
    ∧ (assessmentClass s = "warning" ↔ 30 < s ∧ s ≤ 60)
    ∧ (assessmentClass s = "safe" ↔ s ≤ 30)
    ∧ (dashboardVerdict s).cls = "verdict-" ++ assessmentClass s
    ∧ assessmentClass 30 = "safe"
    ∧ assessmentClass 60 = "warning" := by
  unfold assessmentClass dashboardVerdict
  split_ifs <;> refine ⟨?_, ?_, ?_, ?_, ?_, ?_⟩ <;>
    first
      | (simp_all; omega)
      | simp_all

/-- Witness for `verdict_classification` at risk_score 45. -/
theorem verdict_classification_witness :
    (0 : ℤ) ≤ 45 ∧ (45 : ℤ) ≤ 100
    ∧ ((assessmentClass 45 = "danger" ↔ 60 < (45 : ℤ))
       ∧ (assessmentClass 45 = "warning" ↔ 30 < (45 : ℤ) ∧ (45 : ℤ) ≤ 60)
       ∧ (assessmentClass 45 = "safe" ↔ (45 : ℤ) ≤ 30)
       ∧ (dashboardVerdict 45).cls = "verdict-" ++ assessmentClass 45
       ∧ assessmentClass 30 = "safe"
       ∧ assessmentClass 60 = "warning") :=
  ⟨by decide, by decide, verdict_classification 45 (by decide) (by decide)⟩

/-- Evaluation of `complianceColor` on the green band. -/
theorem complianceColor_eq_green {t : ℤ} (ht : 70 ≤ t) :
    complianceColor t = "#22c55e" := by
  unfold complianceColor
  rw [if_pos (by omega : t ≥ 70)]

/-- Evaluation of `complianceColor` on the amber band. -/
theorem complianceColor_eq_amber {t : ℤ} (h1 : 40 ≤ t) (h2 : t < 70) :
    complianceColor t = "#f59e0b" := by
  unfold complianceColor
  rw [if_neg (by omega : ¬t ≥ 70), if_pos (by omega : t ≥ 40)]

/-- Evaluation of `complianceColor` on the red band. -/
theorem complianceColor_eq_red {t : ℤ} (h : t < 40) :
    complianceColor t = "#ef4444" := by
  unfold complianceColor
  rw [if_neg (by omega : ¬t ≥ 70), if_neg (by omega : ¬t ≥ 40)]

/-- Evaluation of `dashCompColor` on the green band. -/
theorem dashCompColor_eq_green {t : ℤ} (ht : 70 ≤ t) :
    dashCompColor t = "#4ade80" := by
  unfold dashCompColor
  rw [if_pos (by omega : t ≥ 70)]

/-- Evaluation of `dashCompColor` on the amber band. -/
theorem dashCompColor_eq_amber {t : ℤ} (h1 : 40 ≤ t) (h2 : t < 70) :
    dashCompColor t = "#fbbf24" := by
  unfold dashCompColor
  rw [if_neg (by omega : ¬t ≥ 70), if_pos (by omega : t ≥ 40)]

/-- Evaluation of `dashCompColor` on the red band. -/
theorem dashCompColor_eq_red {t : ℤ} (h : t < 40) :
    dashCompColor t = "#f87171" := by
  unfold dashCompColor
  rw [if_neg (by omega : ¬t ≥ 70), if_neg (by omega : ¬t ≥ 40)]

/-- C5: for compliance_score in [0,100] the compliance color is green iff
score ≥ 70, amber iff 40 ≤ score ≤ 69, red iff score < 40, in both the
ResultsPage palette and the Dashboard palette; 39 is red, 40 and 69 amber,
70 green. -/
theorem compliance_color_classification (cs : ℤ) (h0 : 0 ≤ cs) (h100 : cs ≤ 100) :
    ((complianceColor cs = "#22c55e" ∧ dashCompColor cs = "#4ade80") ↔ 70 ≤ cs)
    ∧ ((complianceColor cs = "#f59e0b" ∧ dashCompColor cs = "#fbbf24") ↔
        40 ≤ cs ∧ cs ≤ 69)
    ∧ ((complianceColor cs = "#ef4444" ∧ dashCompColor cs = "#f87171") ↔ cs < 40)
    ∧ complianceColor 39 = "#ef4444" ∧ complianceColor 40 = "#f59e0b"
    ∧ complianceColor 69 = "#f59e0b" ∧ complianceColor 70 = "#22c55e"
    ∧ dashCompColor 39 = "#f87171" ∧ dashCompColor 40 = "#fbbf24"
    ∧ dashCompColor 69 = "#fbbf24" ∧ dashCompColor 70 = "#4ade80" := by
  rcases (show cs < 40 ∨ (40 ≤ cs ∧ cs < 70) ∨ 70 ≤ cs by omega) with h | ⟨ha, hb⟩ | h
  · refine ⟨?_, ?_, ?_, by decide, by decide, by decide, by decide,
      by decide, by decide, by decide, by decide⟩ <;>
      simp [complianceColor_eq_red h, dashCompColor_eq_red h] <;> omega
  · refine ⟨?_, ?_, ?_, by decide, by decide, by decide, by decide,
      by decide, by decide, by decide, by decide⟩ <;>
      simp [complianceColor_eq_amber ha hb, dashCompColor_eq_amber ha hb] <;> omega
  · refine ⟨?_, ?_, ?_, by decide, by decide, by decide, by decide,
      by decide, by decide, by decide, by decide⟩ <;>
      simp [complianceColor_eq_green h, dashCompColor_eq_green h] <;> omega

/-- Witness for `compliance_color_classification` at compliance_score 55. -/
theorem compliance_color_classification_witness :
    (0 : ℤ) ≤ 55 ∧ (55 : ℤ) ≤ 100
    ∧ (((complianceColor 55 = "#22c55e" ∧ dashCompColor 55 = "#4ade80") ↔ 70 ≤ (55 : ℤ))
       ∧ ((complianceColor 55 = "#f59e0b" ∧ dashCompColor 55 = "#fbbf24") ↔
           40 ≤ (55 : ℤ) ∧ (55 : ℤ) ≤ 69)
       ∧ ((complianceColor 55 = "#ef4444" ∧ dashCompColor 55 = "#f87171") ↔ (55 : ℤ) < 40)
       ∧ complianceColor 39 = "#ef4444" ∧ complianceColor 40 = "#f59e0b"
       ∧ complianceColor 69 = "#f59e0b" ∧ complianceColor 70 = "#22c55e"
       ∧ dashCompColor 39 = "#f87171" ∧ dashCompColor 40 = "#fbbf24"
       ∧ dashCompColor 69 = "#fbbf24" ∧ dashCompColor 70 = "#4ade80") :=
  ⟨by decide, by decide, compliance_color_classification 55 (by decide) (by decide)⟩

/- ──────────────────────────────────────────────────────────────
   Theorems: compliance progress arc (C10)
   ────────────────────────────────────────────────────────────── -/

/-- C10: the compliance arc dash length is (found / max(total,1)) · 132; on an
empty details list it is exactly 0 (the denominator `max total 1` is never
zero, so the division is guarded), rendering an empty arc. -/
theorem compliance_arc_dash_guarded :
    complianceArcDash [] = 0
    ∧ compFound ([] : List ComplianceCheck) = 0
    ∧ ([] : List ComplianceCheck).length = 0
    ∧ compArcDash 0 0 = 0
    ∧ (∀ total : ℕ, (1 : ℚ) ≤ ((max total 1 : ℕ) : ℚ))
    ∧ (∀ found total : ℕ,
        compArcDash found total = (found : ℚ) / ((max total 1 : ℕ) : ℚ) * 132) := by
  refine ⟨by norm_num [complianceArcDash, compArcDash, compFound], rfl, rfl,
    by norm_num [compArcDash], ?_, fun found total => rfl⟩
  intro total
  have h : 1 ≤ max total 1 := le_max_right total 1
  exact_mod_cast h

/- ──────────────────────────────────────────────────────────────
   Theorems: gauge arc geometry (C2, C6)
   ────────────────────────────────────────────────────────────── -/

/-- A valid gauge (size larger than the 8px stroke) has a positive circumference. -/
theorem scoreRingCircumference_pos {size : ℝ} (h : 8 < size) :
    0 < scoreRingCircumference size := by
  unfold scoreRingCircumference scoreRingRadius
  nlinarith [Real.pi_pos]

/-- C2 counterexample: at size 110 and score 200 the rendered offset is the
raw-score offset `-C`, which is negative and differs from the clamped offset
`0` the claim prescribes. -/
theorem scoreRing_offset_not_clamped :
    scoreRingOffset 110 200 ≠ specClampedRingOffset 110 200
    ∧ scoreRingOffset 110 200 < 0 := by
  have hp := Real.pi_pos
  unfold scoreRingOffset specClampedRingOffset scoreRingCircumference scoreRingRadius
  norm_num
  constructor
  · intro hcontra
    nlinarith
  · nlinarith

/-- C2 amended: the gauge renderer does not clamp; for every real score the
rendered rest offset is `C − (score/100)·C` computed from the raw score, so
scores above 100 yield a negative offset and scores below 0 an offset larger
than the circumference. No error is raised (the formula is total). -/
theorem scoreRing_offset_raw_formula (size score : ℝ) (hsize : 8 < size) :
    scoreRingOffset size score
      = scoreRingCircumference size - score / 100 * scoreRingCircumference size
    ∧ scoreRingOffset size score = scoreRingCircumference size * (1 - score / 100)
    ∧ (100 < score → scoreRingOffset size score < 0)
    ∧ (score < 0 → scoreRingCircumference size < scoreRingOffset size score) := by
  have hC := scoreRingCircumference_pos hsize
  refine ⟨rfl, by unfold scoreRingOffset; ring, ?_, ?_⟩
  · intro hs
    unfold scoreRingOffset
    nlinarith
  · intro hs
    unfold scoreRingOffset
    nlinarith

/-- Witness for `scoreRing_offset_raw_formula` at size 110, score 200. -/
theorem scoreRing_offset_raw_formula_witness :
    (8 : ℝ) < 110
    ∧ (scoreRingOffset 110 200
        = scoreRingCircumference 110 - 200 / 100 * scoreRingCircumference 110
       ∧ scoreRingOffset 110 200 = scoreRingCircumference 110 * (1 - 200 / 100)
       ∧ ((100 : ℝ) < 200 → scoreRingOffset 110 200 < 0)
       ∧ ((200 : ℝ) < 0 → scoreRingCircumference 110 < scoreRingOffset 110 200)) :=
  ⟨by norm_num, scoreRing_offset_raw_formula 110 200 (by norm_num)⟩

/-- C6: for a gauge of given size with the fixed stroke width 8, the rest arc
offset is strictly decreasing in the score on [0,100], with offset(0) = C and
offset(100) = 0. -/
theorem scoreRing_offset_strict_anti (size s1 s2 : ℝ) (hsize : 8 < size)
    (_hlow : 0 ≤ s1) (_hhigh : s2 ≤ 100) (hlt : s1 < s2) :
    scoreRingOffset size 0 = scoreRingCircumference size
    ∧ scoreRingOffset size 100 = 0
    ∧ scoreRingOffset size s2 < scoreRingOffset size s1 := by
  have hC := scoreRingCircumference_pos hsize
  refine ⟨by unfold scoreRingOffset; ring, by unfold scoreRingOffset; ring, ?_⟩
  unfold scoreRingOffset
  nlinarith

/-- Witness for `scoreRing_offset_strict_anti` at size 110, scores 20 < 50. -/
theorem scoreRing_offset_strict_anti_witness :
    (8 : ℝ) < 110 ∧ (0 : ℝ) ≤ 20 ∧ (50 : ℝ) ≤ 100 ∧ (20 : ℝ) < 50
    ∧ (scoreRingOffset 110 0 = scoreRingCircumference 110
       ∧ scoreRingOffset 110 100 = 0
       ∧ scoreRingOffset 110 50 < scoreRingOffset 110 20) :=
  ⟨by norm_num, by norm_num, by norm_num, by norm_num,
    scoreRing_offset_strict_anti 110 20 50 (by norm_num) (by norm_num)
      (by norm_num) (by norm_num)⟩

/- ──────────────────────────────────────────────────────────────
   Theorems: shared overlay tooltip (C3)
   ────────────────────────────────────────────────────────────── -/

/-- Once exactly one overlay element exists, every request returns it and
leaves the DOM unchanged. -/
theorem requestTooltip_of_single (n : ℕ) (d : TooltipDom) (e : ℕ)
    (h : d.tooltipElems = [e]) :
    requestTooltip n d = (List.replicate n e, d) := by
  have hget : getOrCreateTooltipEl d = (e, d) := by
    unfold getOrCreateTooltipEl getElementByTooltipId
    rw [h]
    rfl
  induction n with
  | zero => rfl
  | succ m ih =>
      unfold requestTooltip
      rw [hget, ih]
      rfl

/-- C3: starting from a document with no overlay element, any positive number
of requests creates the overlay exactly once — afterwards exactly one element
with the tooltip id exists, and every request (the first included) returned
that same element. -/
theorem tooltip_singleton (d : TooltipDom) (n : ℕ)
    (hempty : d.tooltipElems = []) (hn : 1 ≤ n) :
    ((requestTooltip n d).2).tooltipElems = [d.fresh]
    ∧ (requestTooltip n d).1 = List.replicate n d.fresh := by
  obtain ⟨m, rfl⟩ : ∃ m, n = m + 1 := ⟨n - 1, by omega⟩
  have hget : getOrCreateTooltipEl d
      = (d.fresh, { tooltipElems := [d.fresh], fresh := d.fresh + 1 }) := by
    unfold getOrCreateTooltipEl getElementByTooltipId
    rw [hempty]
    rfl
  have hrest := requestTooltip_of_single m
    { tooltipElems := [d.fresh], fresh := d.fresh + 1 } d.fresh rfl
  unfold requestTooltip
  rw [hget, hrest]
  exact ⟨rfl, rfl⟩

/-- Witness for `tooltip_singleton`: three requests from an empty document. -/
theorem tooltip_singleton_witness :
    (⟨[], 0⟩ : TooltipDom).tooltipElems = [] ∧ 1 ≤ 3
    ∧ (((requestTooltip 3 ⟨[], 0⟩).2).tooltipElems = [(⟨[], 0⟩ : TooltipDom).fresh]
       ∧ (requestTooltip 3 ⟨[], 0⟩).1 = List.replicate 3 (⟨[], 0⟩ : TooltipDom).fresh) :=
  ⟨rfl, by decide, tooltip_singleton ⟨[], 0⟩ 3 rfl (by decide)⟩

/- ──────────────────────────────────────────────────────────────
   Theorems: scroll reveal hook (C4, C8, C9)
   ────────────────────────────────────────────────────────────── -/

/-- With no live subscription, visibility events change nothing. -/
theorem revealRun_frozen (s : RevealInst) (h : s.subscribed = false) :
    ∀ evs : List Bool, revealRun s evs = s := by
  intro evs
  induction evs with
  | nil => rfl
  | cons e es ih =>
      unfold revealRun
      rw [h]
      simpa using ih

/-- From a subscribed, not-yet-fired state, a run of visibility events either
fires exactly once (if some event intersects) or changes nothing. -/
theorem revealRun_char (s : RevealInst) (hs : s.subscribed = true)
    (ha : s.hasAnimated = false) (evs : List Bool) :
    revealRun s evs = if true ∈ evs then revealFired s else s := by
  induction evs with
  | nil => rfl
  | cons e es ih =>
      unfold revealRun
      rw [hs]
      simp only [if_true]
      cases e with
      | true =>
          have hcb : revealCallback s true = revealFired s := by
            unfold revealCallback revealFired
            rw [ha]
            rfl
          rw [hcb, revealRun_frozen (revealFired s) rfl es]
          simp
      | false =>
          have hcb : revealCallback s false = s := by
            unfold revealCallback
            simp
          rw [hcb, ih]
          simp

/-- C4: for a mounted instance without reduced motion, the entrance animation
fires at most once: `hasAnimated` starts false, at most one animation ever
starts, the first intersecting event fires it exactly once and releases the
subscription, and once fired the state never changes again (later events are
ignored, the flag never resets). -/
theorem reveal_fires_at_most_once (stagger : Bool) (n : ℕ) (evs evs2 : List Bool) :
    (revealSetup false stagger n).1.hasAnimated = false
    ∧ (revealRun (revealSetup false stagger n).1 evs).animCount ≤ 1
    ∧ (true ∈ evs →
        (revealRun (revealSetup false stagger n).1 evs).hasAnimated = true
        ∧ (revealRun (revealSetup false stagger n).1 evs).animCount = 1
        ∧ (revealRun (revealSetup false stagger n).1 evs).subscribed = false)
    ∧ ((revealRun (revealSetup false stagger n).1 evs).hasAnimated = true →
        revealRun (revealRun (revealSetup false stagger n).1 evs) evs2
          = revealRun (revealSetup false stagger n).1 evs) := by
  have hfields : (revealSetup false stagger n).1.subscribed = true
      ∧ (revealSetup false stagger n).1.hasAnimated = false
      ∧ (revealSetup false stagger n).1.animCount = 0 := by
    cases stagger <;> exact ⟨rfl, rfl, rfl⟩
  obtain ⟨hs, ha, hc⟩ := hfields
  have hchar := revealRun_char (revealSetup false stagger n).1 hs ha evs
  by_cases hmem : true ∈ evs
  · rw [hchar, if_pos hmem]
    refine ⟨ha, by simp [revealFired, hc], fun _ => ⟨rfl, by simp [revealFired, hc], rfl⟩,
      fun _ => revealRun_frozen _ rfl evs2⟩
  · rw [hchar, if_neg hmem]
    exact ⟨ha, by omega, fun hmem2 => absurd hmem2 hmem,
      fun hfired => absurd hfired (by rw [ha]; simp)⟩

/-- Witness for `reveal_fires_at_most_once`: two intersecting events in a row
fire the animation exactly once. -/
theorem reveal_fires_at_most_once_witness :
    true ∈ [true, true]
    ∧ (revealRun (revealSetup false false 0).1 [true, true]).animCount ≤ 1
    ∧ ((revealRun (revealSetup false false 0).1 [true, true]).hasAnimated = true
       ∧ (revealRun (revealSetup false false 0).1 [true, true]).animCount = 1
       ∧ (revealRun (revealSetup false false 0).1 [true, true]).subscribed = false) :=
  ⟨by decide, (reveal_fires_at_most_once false 0 [true, true] []).2.1,
    (reveal_fires_at_most_once false 0 [true, true] []).2.2.1 (by decide)⟩

/-- C8: under an active reduced-motion preference the instance is immediately
fully visible (`isVisible = true`, container opacity written to 1), no
animation is started, no subscription is ever made (the setup trace contains
no subscribe action), and no later visibility event can change the state. -/
theorem reveal_reduced_motion (stagger : Bool) (n : ℕ) (evs : List Bool) :
    (revealSetup true stagger n).1.isVisible = true
    ∧ (revealSetup true stagger n).1.elOpacity = some "1"
    ∧ (revealSetup true stagger n).1.subscribed = false
    ∧ (revealSetup true stagger n).1.animCount = 0
    ∧ RAction.subscribe ∉ (revealSetup true stagger n).2
    ∧ revealRun (revealSetup true stagger n).1 evs = (revealSetup true stagger n).1 := by
  refine ⟨rfl, rfl, rfl, rfl, ?_, revealRun_frozen _ rfl evs⟩
  intro h
  simp [revealSetup] at h

/-- C9: without reduced motion, the setup trace is exactly the hidden-style
writes followed by the subscribe action: every opacity-0 write strictly
precedes the subscription, no subscribe occurs among them, and at the moment
of subscription the hidden state is already in place (container opacity 0, or
every child at opacity 0 in stagger mode). Visibility callbacks are only
delivered by `revealRun`, i.e. after this setup completes. -/
theorem reveal_hidden_before_subscribe (stagger : Bool) (n : ℕ) :
    (revealSetup false stagger n).2 = hiddenSets stagger n ++ [RAction.subscribe]
    ∧ (∀ a ∈ hiddenSets stagger n, isHiddenSet a = true)
    ∧ RAction.subscribe ∉ hiddenSets stagger n
    ∧ (stagger = true →
        (revealSetup false stagger n).1.childOpacity = List.replicate n (some "0"))
    ∧ (stagger = false → (revealSetup false stagger n).1.elOpacity = some "0") := by
  cases stagger with
  | false =>
      refine ⟨rfl, ?_, ?_, by intro h; simp at h, fun _ => rfl⟩
      · intro a ha
        simp [hiddenSets] at ha
        rw [ha]
        rfl
      · intro h
        simp [hiddenSets] at h
  | true =>
      refine ⟨rfl, ?_, ?_, fun _ => rfl, by intro h; simp at h⟩
      · intro a ha
        simp [hiddenSets] at ha
        obtain ⟨i, _, rfl⟩ := ha
        rfl
      · intro h
        simp [hiddenSets] at h

/-- Witness for `reveal_hidden_before_subscribe` in stagger mode with two
children. -/
theorem reveal_hidden_before_subscribe_witness :
    RAction.setChildOpacity 0 "0" ∈ hiddenSets true 2
    ∧ isHiddenSet (RAction.setChildOpacity 0 "0") = true
    ∧ (revealSetup false true 2).2 = hiddenSets true 2 ++ [RAction.subscribe]
    ∧ (true = true →
        (revealSetup false true 2).1.childOpacity = List.replicate 2 (some "0")) :=
  ⟨by decide, (reveal_hidden_before_subscribe true 2).2.1 _ (by decide),
    (reveal_hidden_before_subscribe true 2).1,
    (reveal_hidden_before_subscribe true 2).2.2.2.1⟩

/- ──────────────────────────────────────────────────────────────
   Theorems: risk-by-type breakdown (C7)
   ────────────────────────────────────────────────────────────── -/

/-- `riskTypeLe` is transitive. -/
theorem riskTypeLe_trans (a b c : String × ℕ) (h1 : riskTypeLe a b = true)
    (h2 : riskTypeLe b c = true) : riskTypeLe a c = true := by
  simp only [riskTypeLe, decide_eq_true_eq] at *
  omega

/-- `riskTypeLe` is total. -/
theorem riskTypeLe_total (a b : String × ℕ) :
    (riskTypeLe a b || riskTypeLe b a) = true := by
  simp only [riskTypeLe, Bool.or_eq_true, decide_eq_true_eq]
  omega

/-- Lookup after a `bump`: the bumped key gains one, other keys are
untouched. -/
theorem bump_lookupCount (m : List (String × ℕ)) (t t' : String) :
    lookupCount (bump m t) t' =
      if t' = t then some ((lookupCount m t).getD 0 + 1) else lookupCount m t' := by
  induction m with
  | nil =>
      by_cases h : t' = t
      · subst h
        simp [bump, lookupCount]
      · have h2 : ¬t = t' := fun hh => h hh.symm
        simp [bump, lookupCount, h, h2]
  | cons kv rest ih =>
      obtain ⟨k, c⟩ := kv
      by_cases hk : k = t
      · subst hk
        by_cases h : t' = k
        · subst h
          simp [bump, lookupCount]
        · have h2 : ¬k = t' := fun hh => h hh.symm
          simp [bump, lookupCount, h, h2]
      · by_cases h : t' = k
        · subst h
          simp [bump, hk, lookupCount]
        · have hks : ¬k = t' := fun hh => h hh.symm
          simp [bump, hk, lookupCount, hks, ih]

/-- Keys after a `bump`: a missing key is appended, an existing key map is
unchanged. -/
theorem bump_keys (m : List (String × ℕ)) (t : String) :
    (bump m t).map Prod.fst =
      if lookupCount m t = none then m.map Prod.fst ++ [t] else m.map Prod.fst := by
  induction m with
  | nil => simp [bump, lookupCount]
  | cons kv rest ih =>
      obtain ⟨k, c⟩ := kv
      by_cases hk : k = t
      · subst hk
        simp [bump, lookupCount]
      · simp [bump, hk, lookupCount, ih]
        split_ifs <;> rfl

/-- A key is absent from the map iff its lookup is `none`. -/
theorem lookupCount_none_iff (m : List (String × ℕ)) (t : String) :
    lookupCount m t = none ↔ t ∉ m.map Prod.fst := by
  induction m with
  | nil => simp [lookupCount]
  | cons kv rest ih =>
      obtain ⟨k, c⟩ := kv
      by_cases hk : k = t
      · subst hk
        simp [lookupCount]
      · have h2 : ¬t = k := fun hh => hk hh.symm
        simp only [lookupCount, if_neg hk, List.map_cons, List.mem_cons, ih]
        tauto

/-- `bump` preserves distinctness of keys. -/
theorem bump_keys_nodup (m : List (String × ℕ)) (t : String)
    (h : (m.map Prod.fst).Nodup) : ((bump m t).map Prod.fst).Nodup := by
  rw [bump_keys]
  split_ifs with hl
  · rw [List.nodup_append]
    refine ⟨h, List.nodup_singleton t, ?_⟩
    intro a ha hat
    rw [List.mem_singleton] at hat
    subst hat
    exact (lookupCount_none_iff m a).mp hl ha
  · exact h

/-- With distinct keys, membership of the association list coincides with
lookup. -/
theorem mem_iff_lookupCount (m : List (String × ℕ))
    (h : (m.map Prod.fst).Nodup) (t : String) (c : ℕ) :
    (t, c) ∈ m ↔ lookupCount m t = some c := by
  induction m with
  | nil => simp [lookupCount]
  | cons kv rest ih =>
      obtain ⟨k, v⟩ := kv
      simp only [List.map_cons, List.nodup_cons] at h
      by_cases hk : k = t
      · subst hk
        have hlk : lookupCount ((k, v) :: rest) k = some v := by
          simp [lookupCount]
        rw [hlk]
        constructor
        · intro hmem
          rcases List.mem_cons.mp hmem with heq | hmem2
          · rw [Prod.mk.injEq] at heq
            rw [heq.2]
          · exact absurd (List.mem_map_of_mem Prod.fst hmem2) h.1
        · intro hc
          rw [Option.some.injEq] at hc
          subst hc
          exact List.mem_cons_self _ _
      · simp only [lookupCount, if_neg hk]
        rw [← ih h.2]
        constructor
        · intro hmem
          rcases List.mem_cons.mp hmem with heq | hmem2
          · rw [Prod.mk.injEq] at heq
            exact absurd heq.1.symm hk
          · exact hmem2
        · intro hmem2
          exact List.mem_cons_of_mem _ hmem2

/-- Adding zero occurrences changes nothing. -/
theorem addCount_zero (p : Option ℕ) : addCount p 0 = p := by
  cases p <;> rfl

/-- A bump followed by `k` more occurrences equals `k + 1` occurrences. -/
theorem addCount_shift (p : Option ℕ) (k : ℕ) :
    addCount (some ((p).getD 0 + 1)) k = addCount p (k + 1) := by
  cases p <;> simp [addCount] <;> omega

/-- Folding `bump` over a list of types adds each type's multiplicity to its
count. -/
theorem bumpAll_lookupCount (ts : List String) :
    ∀ (m : List (String × ℕ)) (t : String),
      lookupCount (bumpAll m ts) t = addCount (lookupCount m t) (ts.count t) := by
  induction ts with
  | nil =>
      intro m t
      simp [bumpAll, addCount_zero]
  | cons t0 ts ih =>
      intro m t
      have hstep : bumpAll m (t0 :: ts) = bumpAll (bump m t0) ts := rfl
      rw [hstep, ih, bump_lookupCount]
      by_cases h : t = t0
      · subst h
        rw [if_pos rfl, List.count_cons_self, addCount_shift]
      · rw [if_neg h, List.count_cons]
        have h2 : ¬t0 = t := fun hh => h hh.symm
        simp [h2]

/-- Folding `bump` preserves distinctness of keys. -/
theorem bumpAll_keys_nodup (ts : List String) :
    ∀ m : List (String × ℕ),
      (m.map Prod.fst).Nodup → ((bumpAll m ts).map Prod.fst).Nodup := by
  induction ts with
  | nil => intro m h; exact h
  | cons t0 ts ih => intro m h; exact ih _ (bump_keys_nodup m t0 h)

/-- The grouped entries are the `bump` fold over the display types. -/
theorem riskTypeEntries_eq (risks : List Risk) :
    riskTypeEntries risks = bumpAll [] (risks.map displayType) := by
  rw [riskTypeEntries, bumpAll, List.foldl_map]

/-- C7: `riskTypes` groups risks by underscore-to-space display type and
counts each category (each listed count is the exact multiplicity of its
category, every occurring category is listed), and the output is the
insertion-ordered grouping sorted descending by count with ties kept in
first-encountered order (stability of the sort). -/
theorem riskTypes_grouping (risks : List Risk) :
    (riskTypes risks).Perm (riskTypeEntries risks)
    ∧ (riskTypes risks).Pairwise (fun a b => b.2 ≤ a.2)
    ∧ (∀ a b : String × ℕ, [a, b].Sublist (riskTypeEntries risks) → a.2 = b.2 →
        [a, b].Sublist (riskTypes risks))
    ∧ (∀ t c, (t, c) ∈ riskTypes risks →
        c = (risks.map displayType).count t ∧ 0 < c)
    ∧ (∀ r ∈ risks, ∃ c, (displayType r, c) ∈ riskTypes risks) := by
  have hperm : (riskTypes risks).Perm (riskTypeEntries risks) :=
    List.mergeSort_perm _ _
  have hnd : ((riskTypeEntries risks).map Prod.fst).Nodup := by
    rw [riskTypeEntries_eq]
    exact bumpAll_keys_nodup _ [] (by simp)
  have hlook : ∀ t, lookupCount (riskTypeEntries risks) t
      = addCount none ((risks.map displayType).count t) := by
    intro t
    rw [riskTypeEntries_eq, bumpAll_lookupCount]
    rfl
  refine ⟨hperm, ?_, ?_, ?_, ?_⟩
  · refine (List.sorted_mergeSort riskTypeLe_trans riskTypeLe_total _).imp ?_
    intro a b hab
    simpa [riskTypeLe] using hab
  · intro a b hsub heq
    refine List.sublist_mergeSort riskTypeLe_trans riskTypeLe_total ?_ hsub
    simp [riskTypeLe, heq]
  · intro t c hmem
    have hl : lookupCount (riskTypeEntries risks) t = some c :=
      (mem_iff_lookupCount _ hnd t c).mp (hperm.mem_iff.mp hmem)
    rw [hlook] at hl
    cases hcnt : (risks.map displayType).count t with
    | zero =>
        rw [hcnt] at hl
        exact absurd hl (by simp [addCount])
    | succ k =>
        rw [hcnt] at hl
        simp only [addCount, Option.some.injEq] at hl
        omega
  · intro r hr
    have hmemt : displayType r ∈ risks.map displayType :=
      List.mem_map_of_mem _ hr
    have hpos : 0 < (risks.map displayType).count (displayType r) :=
      List.count_pos_iff.mpr hmemt
    refine ⟨(risks.map displayType).count (displayType r), ?_⟩
    rw [hperm.mem_iff, mem_iff_lookupCount _ hnd, hlook]
    obtain ⟨k, hk⟩ : ∃ k, (risks.map displayType).count (displayType r) = k + 1 :=
      ⟨(risks.map displayType).count (displayType r) - 1, by omega⟩
    rw [hk]
    rfl

/-- Witness for `riskTypes_grouping` on `demoRisks`: the tied categories
`liability` and `other` (one occurrence each) keep their first-encountered
order behind `auto renewal` (two occurrences, underscore replaced). -/
theorem riskTypes_grouping_witness :
    [(("liability" : String), 1), (("other" : String), 1)].Sublist
      (riskTypeEntries demoRisks)
    ∧ ((("liability" : String), (1 : ℕ)).2 = ((("other" : String), (1 : ℕ))).2)
    ∧ [(("liability" : String), 1), (("other" : String), 1)].Sublist
      (riskTypes demoRisks)
    ∧ (2 = (demoRisks.map displayType).count "auto renewal" ∧ 0 < 2) :=
  ⟨by decide, by decide,
    (riskTypes_grouping demoRisks).2.2.1 _ _ (by decide) (by decide),
    (riskTypes_grouping demoRisks).2.2.2.1 "auto renewal" 2
      ((List.mergeSort_perm (riskTypeEntries demoRisks) riskTypeLe).mem_iff.mpr
        (by decide))⟩

end ClauseCheck
